import Mathlib

/-!
Verification of the FitSync API gateway against its specification.

The gateway is a Node/Express edge service. The definitions below are a
shallow embedding of its request handlers: JSON bodies become an inductive
`Json` type, JavaScript property access and truthiness are modelled
explicitly (property access on `null` throws, which we model with
`Except Unit`), settled promise slots from `Promise.allSettled` become the
`Settled` inductive, and each composite handler becomes a pure function from
its inputs (annotated identity, path parameter, settled backend results) to
the response it writes.
-/

namespace FitSync

/-- JSON values as the gateway sees them: backend bodies, request bodies and
gateway response envelopes. Object keys are assumed distinct, matching the
bodies produced by JSON parsing in the service. -/
inductive Json where
  | null
  | bool (b : Bool)
  | num (n : Int)
  | str (s : String)
  | arr (elems : List Json)
  | obj (fields : List (String × Json))

/-- First-match lookup of a key in an object field list. -/
def lookupField : List (String × Json) → String → Option Json
  | [], _ => none
  | (k, v) :: rest, key => if k == key then some v else lookupField rest key

/-- Property read on a JSON value when the receiver is known not to be
`null`: objects look the key up, every other value yields `undefined`
(modelled as `none`). -/
def Json.getKey : Json → String → Option Json
  | Json.obj fs, k => lookupField fs k
  | _, _ => none

/-- JavaScript property access `v.k`: throws a TypeError on `null`
(modelled as `Except.error ()`), otherwise behaves like `Json.getKey`,
with `none` standing for `undefined`. -/
def jsAccess : Json → String → Except Unit (Option Json)
  | Json.null, _ => Except.error ()
  | Json.obj fs, k => Except.ok (lookupField fs k)
  | _, _ => Except.ok none

/-- Optional chaining `v?.k`: never throws; `null` gives `undefined`. -/
def jsOptAccess : Json → String → Option Json
  | Json.null, _ => none
  | Json.obj fs, k => lookupField fs k
  | _, _ => none

/-- JavaScript truthiness of a JSON value. -/
def jsTruthy : Json → Bool
  | Json.null => false
  | Json.bool b => b
  | Json.num n => n != 0
  | Json.str s => s != ""
  | Json.arr _ => true
  | Json.obj _ => true

/-- The expression `v || 0` where `v` may be `undefined` (`none`):
falsy or absent values are replaced by the number `0`. -/
def jsOrZero : Option Json → Json
  | none => Json.num 0
  | some v => if jsTruthy v then v else Json.num 0

/-- The JavaScript `String.prototype.startsWith` test, on character lists. -/
def jsStartsWith : List Char → List Char → Bool
  | _, [] => true
  | [], _ :: _ => false
  | c :: cs, p :: ps => c == p && jsStartsWith cs ps

/-- Leading and trailing whitespace removal, as `parseInt` performs before
reading digits. -/
def trimChars (cs : List Char) : List Char :=
  ((cs.dropWhile Char.isWhitespace).reverse.dropWhile Char.isWhitespace).reverse

/-- JavaScript `parseInt(s)` restricted to base-10 numerals: leading
whitespace is skipped, an optional sign is read, then the longest digit
run; `none` models `NaN`. The `0x` hexadecimal form is not modelled, as no
claim exercises it. -/
def jsParseInt (s : String) : Option Int :=
  let cs := trimChars s.toList
  let signed : Int × List Char :=
    match cs with
    | '-' :: r => (-1, r)
    | '+' :: r => (1, r)
    | r => (1, r)
  let digits := signed.2.takeWhile Char.isDigit
  if digits.isEmpty then none
  else some (signed.1 * digits.foldl (fun acc c => acc * 10 + Int.ofNat (c.toNat - 48)) 0)

/-- The expression `parseInt(env) || d` from the rate-limit configuration:
`NaN` and `0` are falsy, so both fall back to the default `d`. -/
def jsOrIntDefault (v : Option Int) (d : Int) : Int :=
  match v with
  | none => d
  | some n => if n = 0 then d else n

/-- `windowMs: parseInt(process.env.RATE_LIMIT_WINDOW_MS) || 60000`. -/
def rateLimitWindowMs (env : Option String) : Int :=
  jsOrIntDefault (env.bind jsParseInt) 60000

/-- `max: parseInt(process.env.RATE_LIMIT_MAX_REQUESTS) || 1000`. -/
def rateLimitMaxRequests (env : Option String) : Int :=
  jsOrIntDefault (env.bind jsParseInt) 1000

/-- The decoded identity attached to a request by the token middleware.
Only the claims the handlers read are modelled. -/
structure Identity where
  id : String
  role : String
deriving DecidableEq

/-- A gateway response: HTTP status plus JSON body. -/
structure GatewayResponse where
  status : Nat
  body : Json

/-- Outcome of the external `jwt.verify` primitive: a decoded identity, or
a typed failure (expired, bad signature, wrong issuer, wrong audience,
malformed) whose kind the middleware ignores. -/
inductive VerifyOutcome where
  | ok (decoded : Identity)
  | failed (message : String)

/-- What the `verifyToken` middleware did with one request: the identity it
attached (if any), whether it passed control on, and any response it wrote. -/
structure MwOutcome where
  user : Option Identity
  calledNext : Bool
  response : Option GatewayResponse

/-- The `verifyToken` middleware: absent or non-Bearer headers pass through
untouched; otherwise the token after the 7-character "Bearer " scheme is
verified, attaching the decoded identity on success and attaching nothing on
failure. It always calls `next()` and never writes a response. -/
def verifyToken (verify : String → VerifyOutcome) (authHeader : Option String) : MwOutcome :=
  match authHeader with
  | none => { user := none, calledNext := true, response := none }
  | some h =>
    if jsStartsWith h.toList "Bearer ".toList then
      match verify (String.mk (h.toList.drop 7)) with
      | VerifyOutcome.ok decoded => { user := some decoded, calledNext := true, response := none }
      | VerifyOutcome.failed _ => { user := none, calledNext := true, response := none }
    else { user := none, calledNext := true, response := none }

/-! Gateway-originated response bodies, one definition per literal object the
source writes with `res.json` / the limiter `message`. -/

/-- The forbidden envelope the dashboard handlers write at status 403. -/
def forbiddenBody (msg : String) : Json :=
  Json.obj [("success", Json.bool false),
            ("error", Json.obj [("code", Json.str "FORBIDDEN"), ("message", Json.str msg)])]

/-- 403 response of the client dashboard authorization check. -/
def clientForbidden : GatewayResponse :=
  { status := 403, body := forbiddenBody "Cannot access other client dashboards" }

/-- 403 response of the trainer dashboard authorization check. -/
def trainerForbidden : GatewayResponse :=
  { status := 403, body := forbiddenBody "Cannot access other trainer dashboards" }

/-- 403 response of the admin dashboard authorization check. -/
def adminForbidden : GatewayResponse :=
  { status := 403, body := forbiddenBody "Admin access required" }

/-- Body written by every dashboard catch block at status 500. -/
def dashboardErrorBody : Json :=
  Json.obj [("success", Json.bool false),
            ("error", Json.obj [("code", Json.str "DASHBOARD_ERROR"),
                                ("message", Json.str "Failed to load dashboard")])]

/-- The `message` object of the rate limiter, sent on admission denial. -/
def rateLimitMessage : Json :=
  Json.obj [("success", Json.bool false),
            ("error", Json.obj [("code", Json.str "RATE_LIMIT_EXCEEDED"),
                                ("message", Json.str "Too many requests, please try again later")])]

/-- Body written by the proxy `onError` hook at status 502. -/
def serviceUnavailableBody (ts : String) : Json :=
  Json.obj [("success", Json.bool false),
            ("error", Json.obj [("code", Json.str "SERVICE_UNAVAILABLE"),
                                ("message", Json.str "The requested service is temporarily unavailable"),
                                ("timestamp", Json.str ts)])]

/-- Body of the 404 fall-through handler. -/
def notFoundBody (path ts : String) : Json :=
  Json.obj [("success", Json.bool false),
            ("error", Json.obj [("code", Json.str "NOT_FOUND"),
                                ("message", Json.str "Endpoint not found"),
                                ("path", Json.str path),
                                ("timestamp", Json.str ts)])]

/-- Body of the outermost error handler at status 500. -/
def internalErrorBody (correlationId ts : String) : Json :=
  Json.obj [("success", Json.bool false),
            ("error", Json.obj [("code", Json.str "INTERNAL_ERROR"),
                                ("message", Json.str "An unexpected error occurred"),
                                ("correlationId", Json.str correlationId),
                                ("timestamp", Json.str ts)])]

/-- Body of the INVALID_TRAINER rejection in the validated booking handler. -/
def invalidTrainerBody : Json :=
  Json.obj [("success", Json.bool false),
            ("error", Json.obj [("code", Json.str "INVALID_TRAINER"),
                                ("message", Json.str "Invalid trainer ID")])]

/-- Body of the BOOKING_FAILED fallback in the validated booking handler. -/
def bookingFailedBody : Json :=
  Json.obj [("success", Json.bool false),
            ("error", Json.obj [("code", Json.str "BOOKING_FAILED"),
                                ("message", Json.str "Failed to create booking")])]

/-- Success envelope of the aggregation endpoints: assembled payload plus a
response timestamp, at status 200. -/
def successEnvelope (payload : Json) (ts : String) : Json :=
  Json.obj [("success", Json.bool true), ("data", payload), ("timestamp", Json.str ts)]

/-! Fan-out slots and assembly. -/

/-- One slot of `Promise.allSettled`: a fulfilled axios call carrying its
response body (`value.data`), or a rejected one. -/
inductive Settled where
  | fulfilled (body : Json)
  | rejected

/-- The `status === 'fulfilled'` test of a slot. -/
def Settled.isFulfilled : Settled → Bool
  | Settled.fulfilled _ => true
  | Settled.rejected => false

/-- One assembly field `slot.status === 'fulfilled' ? slot.value.data.data
: fallback`: a rejected slot yields the fallback, a fulfilled one reads the
`data` property of its body (throwing when the body is `null`, yielding
`undefined` when the property is absent). -/
def extractField (s : Settled) (fallback : Json) : Except Unit (Option Json) :=
  match s with
  | Settled.rejected => Except.ok (some fallback)
  | Settled.fulfilled body => jsAccess body "data"

/-- Build the object `res.json` serializes: fields whose value is
`undefined` are omitted by JSON serialization. -/
def mkObj (fields : List (String × Option Json)) : Json :=
  Json.obj (fields.filterMap (fun kv => kv.2.map (fun v => (kv.1, v))))

/-- Assembly of the client dashboard payload from its four slots. -/
def clientAssemble (profile programs bookings analytics : Settled) : Except Unit Json := do
  let pv ← extractField profile Json.null
  let prv ← extractField programs (Json.arr [])
  let bv ← extractField bookings (Json.arr [])
  let av ← extractField analytics Json.null
  Except.ok (mkObj [("profile", pv), ("active_programs", prv),
                    ("upcoming_bookings", bv), ("progress_summary", av)])

/-- The guard `req.user && req.user.role === 'client' && req.user.id !== id`
of the client dashboard, returned as "is the request authorized". -/
def clientAuthorized (user : Option Identity) (pathId : String) : Bool :=
  match user with
  | none => true
  | some u => !(u.role == "client" && u.id != pathId)

/-- The `GET /api/dashboard/client/:id` handler, as a function of the
annotated identity, path id, response timestamp and the four settled slots.
Returns the response together with the number of backend calls issued. -/
def clientDashboard (user : Option Identity) (pathId ts : String)
    (profile programs bookings analytics : Settled) : GatewayResponse × Nat :=
  if clientAuthorized user pathId then
    match clientAssemble profile programs bookings analytics with
    | Except.error _ => ({ status := 500, body := dashboardErrorBody }, 4)
    | Except.ok payload => ({ status := 200, body := successEnvelope payload ts }, 4)
  else (clientForbidden, 0)

/-- One admin dashboard count:
`slot.status === 'fulfilled' ? slot.value.data.pagination?.total_count || 0 : 0`. -/
def adminCount (s : Settled) : Except Unit Json :=
  match s with
  | Settled.rejected => Except.ok (Json.num 0)
  | Settled.fulfilled body => do
    let pag ← jsAccess body "pagination"
    match pag with
    | none => Except.ok (Json.num 0)
    | some pv => Except.ok (jsOrZero (jsOptAccess pv "total_count"))

/-- Assembly of the admin dashboard payload from its four slots. -/
def adminAssemble (users trainers clients programs : Settled) : Except Unit Json := do
  let tu ← adminCount users
  let tt ← adminCount trainers
  let tc ← adminCount clients
  let tp ← adminCount programs
  Except.ok (Json.obj [("total_users", tu), ("total_trainers", tt),
                       ("total_clients", tc), ("total_programs", tp)])

/-- The guard `req.user && req.user.role !== 'admin'` of the admin
dashboard, returned as "is the request authorized". -/
def adminAuthorized (user : Option Identity) : Bool :=
  match user with
  | none => true
  | some u => u.role == "admin"

/-- The `GET /api/dashboard/admin` handler: response plus number of backend
calls issued. -/
def adminDashboard (user : Option Identity) (ts : String)
    (users trainers clients programs : Settled) : GatewayResponse × Nat :=
  if adminAuthorized user then
    match adminAssemble users trainers clients programs with
    | Except.error _ => ({ status := 500, body := dashboardErrorBody }, 4)
    | Except.ok payload => ({ status := 200, body := successEnvelope payload ts }, 4)
  else (adminForbidden, 0)

/-- Read a field of the `data` object of a response body. -/
def dataField (r : GatewayResponse) (k : String) : Option Json :=
  (Json.getKey r.body "data").bind (fun d => Json.getKey d k)

/-! The trainer dashboard and its today-schedule filter. -/

/-- One booking record of the scheduling backend, reduced to the stored
date string the filter reads plus an opaque tag distinguishing records. -/
structure Booking where
  booking_date : String
  tag : String
deriving DecidableEq

/-- Gregorian leap-year rule, as used by JavaScript Date arithmetic. -/
def isLeapYear (y : Nat) : Bool :=
  (y % 4 == 0 && y % 100 != 0) || y % 400 == 0

/-- Number of days of month `m` in year `y`. -/
def daysInMonth (y m : Nat) : Nat :=
  if m == 2 then (if isLeapYear y then 29 else 28)
  else if m == 4 || m == 6 || m == 9 || m == 11 then 30
  else 31

/-- Base-10 value of a digit list. -/
def digitsToNat (cs : List Char) : Nat :=
  cs.foldl (fun acc c => acc * 10 + (c.toNat - 48)) 0

/-- The normalization `new Date(s).toISOString().split('T')[0]`, modelled
on the ISO date-only form the stored booking dates use: a valid
"YYYY-MM-DD" string parses as UTC midnight and normalizes to itself; every
other string is treated as an Invalid Date, on which `toISOString` throws
(`none`). Datetime forms with time or zone components are outside the
model, as no claim exercises them. -/
def jsDateToISODate (s : String) : Option String :=
  match s.toList with
  | [y1, y2, y3, y4, '-', m1, m2, '-', d1, d2] =>
    if y1.isDigit && y2.isDigit && y3.isDigit && y4.isDigit &&
       m1.isDigit && m2.isDigit && d1.isDigit && d2.isDigit then
      let y := digitsToNat [y1, y2, y3, y4]
      let m := digitsToNat [m1, m2]
      let d := digitsToNat [d1, d2]
      if 1 ≤ m ∧ m ≤ 12 ∧ 1 ≤ d ∧ d ≤ daysInMonth y m then some s else none
    else none
  | _ => none

/-- The filter predicate `b.booking_date === today || new
Date(b.booking_date).toISOString().split('T')[0] === today`: the left
disjunct short-circuits, otherwise normalization may throw. -/
def todayKeeps (today : String) (b : Booking) : Except Unit Bool :=
  if b.booking_date == today then Except.ok true
  else
    match jsDateToISODate b.booking_date with
    | some d => Except.ok (d == today)
    | none => Except.error ()

/-- `Array.prototype.filter` over the bookings list with `todayKeeps`:
evaluated left to right, aborting at the first record whose normalization
throws. -/
def todaySchedule (today : String) : List Booking → Except Unit (List Booking)
  | [] => Except.ok []
  | b :: rest => do
    let keep ← todayKeeps today b
    let tail ← todaySchedule today rest
    Except.ok (if keep then b :: tail else tail)

/-- The settled bookings slot of the trainer dashboard; the nested
`value.data.data` list of the fulfilled body is modelled directly as the
record list the filter runs over. -/
inductive BookingsSlot where
  | fulfilled (records : List Booking)
  | rejected

/-- `programs.value.data.data.length`, given the value of the `data`
property of the programs body: `.length` on `undefined` or `null` throws;
arrays and strings report their length; other objects may carry their own
`length` key; other primitives give `undefined`. -/
def jsLengthOf : Option Json → Except Unit (Option Json)
  | none => Except.error ()
  | some Json.null => Except.error ()
  | some (Json.arr xs) => Except.ok (some (Json.num (Int.ofNat xs.length)))
  | some (Json.str s) => Except.ok (some (Json.num (Int.ofNat s.length)))
  | some (Json.obj fs) => Except.ok (lookupField fs "length")
  | some _ => Except.ok none

/-- `programs.status === 'fulfilled' ? programs.value.data.data.length : 0`. -/
def trainerActiveClients (programs : Settled) : Except Unit (Option Json) :=
  match programs with
  | Settled.rejected => Except.ok (some (Json.num 0))
  | Settled.fulfilled body => do
    let dv ← jsAccess body "data"
    jsLengthOf dv

/-- The assembled trainer dashboard payload. `today_schedule` keeps its
record-list form; the other fields are JSON values, `none` meaning the
field is omitted by serialization. -/
structure TrainerData where
  profile : Option Json
  active_clients : Option Json
  today_schedule : List Booking
  recent_programs : Option Json

/-- Outcome of the trainer dashboard handler. -/
inductive TrainerResponse where
  | forbidden
  | dashboardError
  | success (data : TrainerData) (ts : String)

/-- HTTP status of a trainer dashboard outcome. -/
def TrainerResponse.status : TrainerResponse → Nat
  | TrainerResponse.forbidden => 403
  | TrainerResponse.dashboardError => 500
  | TrainerResponse.success _ _ => 200

/-- The guard `req.user && req.user.role === 'trainer' && req.user.id !==
id` of the trainer dashboard, returned as "is the request authorized". -/
def trainerAuthorized (user : Option Identity) (pathId : String) : Bool :=
  match user with
  | none => true
  | some u => !(u.role == "trainer" && u.id != pathId)

/-- The `GET /api/dashboard/trainer/:id` handler: authorization check, then
the today filter over the fulfilled bookings list (an empty schedule when
the slot rejected), then payload assembly; any thrown error lands in the
catch block, which answers DASHBOARD_ERROR at 500. The clients slot is
fetched by the source but never read during assembly. -/
def trainerDashboard (user : Option Identity) (pathId today ts : String)
    (profile programs : Settled) (todayBookings : BookingsSlot) (_clients : Settled) :
    TrainerResponse :=
  if trainerAuthorized user pathId then
    let sched : Except Unit (List Booking) :=
      match todayBookings with
      | BookingsSlot.rejected => Except.ok []
      | BookingsSlot.fulfilled records => todaySchedule today records
    match sched with
    | Except.error _ => TrainerResponse.dashboardError
    | Except.ok schedule =>
      let rest : Except Unit (Option Json × Option Json × Option Json) := do
        let pv ← extractField profile Json.null
        let ac ← trainerActiveClients programs
        let rp ← extractField programs (Json.arr [])
        Except.ok (pv, ac, rp)
      match rest with
      | Except.error _ => TrainerResponse.dashboardError
      | Except.ok (pv, ac, rp) =>
        TrainerResponse.success
          { profile := pv, active_clients := ac,
            today_schedule := schedule, recent_programs := rp } ts
  else TrainerResponse.forbidden

/-! The validated booking endpoint. -/

/-- Outcome of one axios call as the booking handler sees it: a 2xx
response with its body, an HTTP error response (axios rejects with
`error.response` carrying the status and structured body), or a
transport-level fault (axios rejects without `error.response`). -/
inductive Upstream where
  | ok (body : Json)
  | httpError (status : Nat) (body : Json)
  | netError

/-- `role !== 'trainer'` negated: the property value is exactly the string
"trainer". -/
def roleIsTrainer : Option Json → Bool
  | some (Json.str s) => s == "trainer"
  | _ => false

/-- The `POST /api/bookings/validated` handler. The trainer check carries
`.catch(() => null)`, so any rejection of it, transport fault or backend
error alike, makes `trainerCheck` null and answers INVALID_TRAINER at 400.
Reading `trainerCheck.data.data.role` throws inside the try block when the
body is `null` or its `data` field is absent or `null`; the thrown
TypeError has no `error.response`, so the catch answers BOOKING_FAILED at
500. With a confirmed trainer, the create call forwards the scheduling
backend response at 201 on success, passes an HTTP error response through
with its exact status and body, and maps a transport fault to
BOOKING_FAILED at 500. -/
def postBookingValidated (trainerCheck : Upstream) (createCall : Upstream) : GatewayResponse :=
  match trainerCheck with
  | Upstream.httpError _ _ => { status := 400, body := invalidTrainerBody }
  | Upstream.netError => { status := 400, body := invalidTrainerBody }
  | Upstream.ok body =>
    match jsAccess body "data" with
    | Except.error _ => { status := 500, body := bookingFailedBody }
    | Except.ok none => { status := 500, body := bookingFailedBody }
    | Except.ok (some d) =>
      match jsAccess d "role" with
      | Except.error _ => { status := 500, body := bookingFailedBody }
      | Except.ok rolev =>
        if roleIsTrainer rolev then
          match createCall with
          | Upstream.ok bbody => { status := 201, body := bbody }
          | Upstream.httpError st ebody => { status := st, body := ebody }
          | Upstream.netError => { status := 500, body := bookingFailedBody }
        else { status := 400, body := invalidTrainerBody }

/-- The field names the handler destructures from the request body and
forwards to the scheduling backend create call. -/
def bookingFieldNames : List String :=
  ["trainer_id", "booking_date", "start_time", "end_time", "type", "gym_id", "notes"]

/-- The body of the create call: each forwarded field is the destructured
request-body property of the same name; fields destructured to `undefined`
are omitted by JSON serialization. `express.json` guarantees the request
body is an object, never `null`. -/
def forwardedBookingBody (reqBody : Json) : Json :=
  mkObj (bookingFieldNames.map (fun k => (k, Json.getKey reqBody k)))

/-- Keys of a JSON object. -/
def Json.objKeys : Json → List String
  | Json.obj fs => fs.map Prod.fst
  | _ => []

/-- The per-field assembly rule in the words of the specification, for
comparison with the handlers: a fulfilled slot contributes the nested
`data` field of its body, a rejected slot the documented fallback. -/
def specSlotField (s : Settled) (fallback : Json) : Option Json :=
  match s with
  | Settled.rejected => some fallback
  | Settled.fulfilled body =>
    match jsAccess body "data" with
    | Except.ok v => v
    | Except.error _ => none

/-- The count rule in the words of the specification: the nested
`pagination.total_count` field when present, `0` when that field or the
whole call is missing. -/
def specCountField (s : Settled) : Option Json :=
  match s with
  | Settled.rejected => some (Json.num 0)
  | Settled.fulfilled body =>
    match (Json.getKey body "pagination").bind (fun pv => Json.getKey pv "total_count") with
    | some v => some v
    | none => some (Json.num 0)

/-! Helper lemmas. -/

theorem jsAccess_ne_null (body : Json) (k : String) (h : body ≠ Json.null) :
    jsAccess body k = Except.ok (Json.getKey body k) := by
  cases body <;> simp_all [jsAccess, Json.getKey]

theorem jsOptAccess_eq_getKey (v : Json) (k : String) : jsOptAccess v k = Json.getKey v k := by
  cases v <;> rfl

theorem jsOrZero_num (n : Int) : jsOrZero (some (Json.num n)) = Json.num n := by
  by_cases h : n = 0 <;> simp [jsOrZero, jsTruthy, h]

theorem getKey_mkObj_not_mem (l : List (String × Option Json)) (key : String)
    (h : key ∉ l.map Prod.fst) :
    Json.getKey (mkObj l) key = none := by
  induction l with
  | nil => rfl
  | cons kv rest ih =>
    simp only [List.map_cons, List.mem_cons, not_or] at h
    cases hv : kv.2 with
    | none =>
      simp only [mkObj, List.filterMap_cons, hv, Option.map_none]
      exact ih h.2
    | some v =>
      simp only [mkObj, List.filterMap_cons, hv, Option.map_some]
      simp only [Json.getKey, lookupField]
      have : (kv.1 == key) = false := by
        simp only [beq_eq_false_iff_ne]
        exact fun hk => h.1 hk.symm
      simp only [this, if_neg]
      exact ih h.2

theorem getKey_mkObj_nodup (l : List (String × Option Json)) (key : String)
    (h : (l.map Prod.fst).Nodup) :
    Json.getKey (mkObj l) key = (l.find? (fun kv => kv.1 == key)).bind Prod.snd := by
  induction l with
  | nil => rfl
  | cons kv rest ih =>
    simp only [List.map_cons, List.nodup_cons] at h
    by_cases hk : kv.1 = key
    · subst hk
      cases hv : kv.2 with
      | none =>
        simp only [mkObj, List.filterMap_cons, hv, Option.map_none]
        rw [List.find?_cons_of_pos _ (by simp)]
        have hbind : (some kv).bind Prod.snd = kv.2 := rfl
        rw [hbind, hv]
        exact getKey_mkObj_not_mem rest kv.1 h.1
      | some v =>
        simp only [mkObj, List.filterMap_cons, hv, Option.map_some]
        rw [List.find?_cons_of_pos _ (by simp)]
        have hbind : (some kv).bind Prod.snd = kv.2 := rfl
        rw [hbind, hv]
        simp [Json.getKey, lookupField]
    · have hb : (kv.1 == key) = false := by simp [hk]
      cases hv : kv.2 with
      | none =>
        simp only [mkObj, List.filterMap_cons, hv, Option.map_none]
        rw [List.find?_cons_of_neg _ (by simp [hb])]
        exact ih h.2
      | some v =>
        simp only [mkObj, List.filterMap_cons, hv, Option.map_some]
        rw [List.find?_cons_of_neg _ (by simp [hb])]
        simp only [Json.getKey, lookupField, hb, if_neg]
        exact ih h.2

/-! Claim theorems. -/

/-- Claim C3: for every request whose credential header is absent, not in
Bearer form, or whose token fails verification for any reason, the
middleware calls next with no identity attached, and it never terminates
the request or writes an error response. -/
theorem verifyToken_annotates_softly (verify : String → VerifyOutcome) (header : Option String) :
    (verifyToken verify header).calledNext = true ∧
    (verifyToken verify header).response = none ∧
    (header = none → (verifyToken verify header).user = none) ∧
    (∀ h, header = some h → jsStartsWith h.toList "Bearer ".toList = false →
      (verifyToken verify header).user = none) ∧
    (∀ h msg, header = some h → jsStartsWith h.toList "Bearer ".toList = true →
      verify (String.mk (h.toList.drop 7)) = VerifyOutcome.failed msg →
      (verifyToken verify header).user = none) := by
  cases header with
  | none =>
    refine ⟨rfl, rfl, fun _ => rfl, ?_, ?_⟩
    · intro h hh
      cases hh
    · intro h msg hh
      cases hh
  | some h =>
    by_cases hb : jsStartsWith h.toList "Bearer ".toList = true
    · cases hv : verify (String.mk (h.toList.drop 7)) with
      | ok decoded =>
        refine ⟨?_, ?_, ?_, ?_, ?_⟩ <;> simp_all [verifyToken]
      | failed m =>
        refine ⟨?_, ?_, ?_, ?_, ?_⟩ <;> simp_all [verifyToken]
    · refine ⟨?_, ?_, ?_, ?_, ?_⟩ <;> simp_all [verifyToken]

/-- Witness for C3 at a concrete failing verifier and header. -/
theorem verifyToken_annotates_softly_witness :
    (verifyToken (fun _ => VerifyOutcome.failed "jwt expired") (some "Bearer abc")).user = none ∧
    (verifyToken (fun _ => VerifyOutcome.failed "jwt expired") (some "Bearer abc")).calledNext = true ∧
    (verifyToken (fun _ => VerifyOutcome.failed "jwt expired") (some "notbearer")).user = none := by
  refine ⟨?_, ?_, ?_⟩
  · exact (verifyToken_annotates_softly (fun _ => VerifyOutcome.failed "jwt expired")
      (some "Bearer abc")).2.2.2.2 "Bearer abc" "jwt expired" rfl (by decide) rfl
  · exact (verifyToken_annotates_softly (fun _ => VerifyOutcome.failed "jwt expired")
      (some "Bearer abc")).1
  · exact (verifyToken_annotates_softly (fun _ => VerifyOutcome.failed "jwt expired")
      (some "notbearer")).2.2.2.1 "notbearer" rfl (by decide)

/-- Claim C8 counterexample: the override string "0" parses to the number 0,
yet the resolved window is the default 60000 rather than 0, so a numeric
override does not always replace the default. -/
theorem rateLimit_zero_override_cex :
    jsParseInt "0" = some 0 ∧
    rateLimitWindowMs (some "0") = 60000 ∧
    rateLimitMaxRequests (some "0") = 1000 := by
  refine ⟨by decide, by decide, by decide⟩

/-- Claim C8 (amended): the configuration defaults to window 60000 and
ceiling 1000; an override parsing to a nonzero integer replaces the
default; an override parsing to NaN, or to 0, silently falls back to the
default. -/
theorem rateLimit_config (s : String) (n : Int) :
    rateLimitWindowMs none = 60000 ∧
    rateLimitMaxRequests none = 1000 ∧
    (jsParseInt s = some n → n ≠ 0 →
      rateLimitWindowMs (some s) = n ∧ rateLimitMaxRequests (some s) = n) ∧
    (jsParseInt s = none →
      rateLimitWindowMs (some s) = 60000 ∧ rateLimitMaxRequests (some s) = 1000) ∧
    (jsParseInt s = some 0 →
      rateLimitWindowMs (some s) = 60000 ∧ rateLimitMaxRequests (some s) = 1000) := by
  refine ⟨rfl, rfl, ?_, ?_, ?_⟩
  · intro hp hn
    simp [rateLimitWindowMs, rateLimitMaxRequests, jsOrIntDefault, Option.bind, hp, hn]
  · intro hp
    simp [rateLimitWindowMs, rateLimitMaxRequests, jsOrIntDefault, Option.bind, hp]
  · intro hp
    simp [rateLimitWindowMs, rateLimitMaxRequests, jsOrIntDefault, Option.bind, hp]

/-- Witness for C8 at concrete override strings. -/
theorem rateLimit_config_witness :
    rateLimitWindowMs (some "120000") = 120000 ∧
    rateLimitMaxRequests (some "500") = 500 ∧
    rateLimitWindowMs (some "invalid") = 60000 := by
  refine ⟨?_, ?_, ?_⟩
  · exact ((rateLimit_config "120000" 120000).2.2.1 (by decide) (by decide)).1
  · exact ((rateLimit_config "500" 500).2.2.1 (by decide) (by decide)).2
  · exact ((rateLimit_config "invalid" 0).2.2.2.1 (by decide)).1

/-- Claim C5 counterexample: the rate-limit denial message and the
forbidden envelope carry no timestamp field, neither at the top level nor
inside the error object, so not every gateway-originated response carries
a timestamp. -/
theorem envelope_timestamp_cex :
    Json.getKey rateLimitMessage "timestamp" = none ∧
    (Json.getKey rateLimitMessage "error").bind (fun e => Json.getKey e "timestamp") = none ∧
    Json.getKey (forbiddenBody "Admin access required") "timestamp" = none ∧
    (Json.getKey (forbiddenBody "Admin access required") "error").bind
      (fun e => Json.getKey e "timestamp") = none ∧
    Json.getKey dashboardErrorBody "timestamp" = none ∧
    (Json.getKey dashboardErrorBody "error").bind (fun e => Json.getKey e "timestamp") = none := by
  exact ⟨rfl, rfl, rfl, rfl, rfl, rfl⟩

/-- Claim C5 (amended): every gateway-originated response body carries a
boolean success field and a data or error member; the aggregation success
envelope carries a top-level timestamp, and the proxy-error, not-found and
internal-error envelopes carry a timestamp inside the error object; the
forbidden, rate-limit, dashboard-error, invalid-trainer and booking-failed
envelopes carry no timestamp. -/
theorem envelope_shapes (msg ts path cid : String) (payload : Json) :
    (Json.getKey (successEnvelope payload ts) "success" = some (Json.bool true) ∧
     Json.getKey (successEnvelope payload ts) "data" = some payload ∧
     Json.getKey (successEnvelope payload ts) "timestamp" = some (Json.str ts)) ∧
    (Json.getKey (forbiddenBody msg) "success" = some (Json.bool false) ∧
     (Json.getKey (forbiddenBody msg) "error").isSome = true ∧
     Json.getKey (forbiddenBody msg) "timestamp" = none ∧
     (Json.getKey (forbiddenBody msg) "error").bind
       (fun e => Json.getKey e "timestamp") = none) ∧
    (Json.getKey rateLimitMessage "success" = some (Json.bool false) ∧
     (Json.getKey rateLimitMessage "error").isSome = true ∧
     Json.getKey rateLimitMessage "timestamp" = none) ∧
    (Json.getKey dashboardErrorBody "success" = some (Json.bool false) ∧
     (Json.getKey dashboardErrorBody "error").isSome = true ∧
     Json.getKey dashboardErrorBody "timestamp" = none) ∧
    (Json.getKey invalidTrainerBody "success" = some (Json.bool false) ∧
     (Json.getKey invalidTrainerBody "error").isSome = true ∧
     Json.getKey invalidTrainerBody "timestamp" = none) ∧
    (Json.getKey bookingFailedBody "success" = some (Json.bool false) ∧
     (Json.getKey bookingFailedBody "error").isSome = true ∧
     Json.getKey bookingFailedBody "timestamp" = none) ∧
    (Json.getKey (serviceUnavailableBody ts) "success" = some (Json.bool false) ∧
     (Json.getKey (serviceUnavailableBody ts) "error").bind
       (fun e => Json.getKey e "timestamp") = some (Json.str ts)) ∧
    (Json.getKey (notFoundBody path ts) "success" = some (Json.bool false) ∧
     (Json.getKey (notFoundBody path ts) "error").bind
       (fun e => Json.getKey e "timestamp") = some (Json.str ts)) ∧
    (Json.getKey (internalErrorBody cid ts) "success" = some (Json.bool false) ∧
     (Json.getKey (internalErrorBody cid ts) "error").bind
       (fun e => Json.getKey e "timestamp") = some (Json.str ts)) := by
  refine ⟨⟨rfl, rfl, rfl⟩, ⟨rfl, rfl, rfl, rfl⟩, ⟨rfl, rfl, rfl⟩, ⟨rfl, rfl, rfl⟩,
    ⟨rfl, rfl, rfl⟩, ⟨rfl, rfl, rfl⟩, ⟨rfl, rfl⟩, ⟨rfl, rfl⟩, ⟨rfl, rfl⟩⟩

/-- Every key of the serialized object comes from the field list. -/
theorem objKeys_mkObj (l : List (String × Option Json)) (k : String)
    (h : k ∈ (mkObj l).objKeys) : k ∈ l.map Prod.fst := by
  simp only [mkObj, Json.objKeys] at h
  rw [List.mem_map] at h
  obtain ⟨pair, hp, hfst⟩ := h
  rw [List.mem_filterMap] at hp
  obtain ⟨kv, hkv, hg⟩ := hp
  rw [List.mem_map]
  refine ⟨kv, hkv, ?_⟩
  cases hv : kv.2 with
  | none =>
    rw [hv] at hg
    cases hg
  | some v =>
    rw [hv] at hg
    have hg2 : some ((kv.1, v) : String × Json) = some pair := hg
    have hpair : (kv.1, v) = pair := Option.some.inj hg2
    rw [← hpair] at hfst
    exact hfst

/-- Finding a key among named pairs built from a value function. -/
theorem find?_pair_map (names : List String) (f : String → Option Json) (k : String) :
    List.find? (fun kv => kv.1 == k) (names.map (fun n => (n, f n))) =
      (List.find? (fun n => n == k) names).map (fun n => (n, f n)) := by
  induction names with
  | nil => rfl
  | cons n rest ih =>
    by_cases h : (n == k) = true
    · simp [List.find?_cons, h]
    · simp only [Bool.not_eq_true] at h
      simp [List.find?_cons, h, ih]

/-- Claim C9: the body forwarded to the scheduling backend create call
contains only the seven destructured fields, each copied verbatim from the
request body; the client_id field of the inbound body is never forwarded. -/
theorem forwardedBookingBody_fields (reqBody : Json) :
    Json.getKey (forwardedBookingBody reqBody) "client_id" = none ∧
    (∀ k, k ∈ (forwardedBookingBody reqBody).objKeys → k ∈ bookingFieldNames) ∧
    (∀ k, k ∈ bookingFieldNames →
      Json.getKey (forwardedBookingBody reqBody) k = Json.getKey reqBody k) := by
  have hmap : (bookingFieldNames.map (fun k2 => (k2, Json.getKey reqBody k2))).map
      Prod.fst = bookingFieldNames := rfl
  have hnodup : ((bookingFieldNames.map (fun k2 => (k2, Json.getKey reqBody k2))).map
      Prod.fst).Nodup := by
    rw [hmap]
    decide
  refine ⟨?_, ?_, ?_⟩
  · rw [forwardedBookingBody, getKey_mkObj_nodup _ _ hnodup, find?_pair_map]
    have hfind : List.find? (fun n => n == "client_id") bookingFieldNames = none := by decide
    rw [hfind]
    rfl
  · intro k hk
    have := objKeys_mkObj _ k hk
    rwa [hmap] at this
  · intro k hk
    rw [forwardedBookingBody, getKey_mkObj_nodup _ _ hnodup, find?_pair_map]
    obtain ⟨a, hfind⟩ : ∃ a, List.find? (fun n => n == k) bookingFieldNames = some a := by
      have hs : (List.find? (fun n => n == k) bookingFieldNames).isSome := by
        rw [List.find?_isSome]
        exact ⟨k, hk, by simp⟩
      exact Option.isSome_iff_exists.mp hs
    have hak : a = k := by
      have := List.find?_some hfind
      simpa using this
    rw [hfind]
    subst hak
    rfl

/-- Witness for C9 at a concrete request body carrying a client_id field. -/
theorem forwardedBookingBody_fields_witness :
    Json.getKey (forwardedBookingBody (Json.obj
      [("client_id", Json.str "c77"), ("trainer_id", Json.str "t9")])) "client_id" = none ∧
    Json.getKey (forwardedBookingBody (Json.obj
      [("client_id", Json.str "c77"), ("trainer_id", Json.str "t9")])) "trainer_id" =
      some (Json.str "t9") := by
  refine ⟨?_, ?_⟩
  · exact (forwardedBookingBody_fields (Json.obj
      [("client_id", Json.str "c77"), ("trainer_id", Json.str "t9")])).1
  · have h := (forwardedBookingBody_fields (Json.obj
      [("client_id", Json.str "c77"), ("trainer_id", Json.str "t9")])).2.2
      "trainer_id" (by decide)
    rw [h]
    rfl

/-- Claim C1 counterexample: a request with no annotated Identity at all is
granted admin-overview access (status 200, four backend calls), although it
does not carry an Identity whose role is admin, so access is not granted
only to admin-role identities. -/
theorem adminAccess_no_identity_cex :
    adminAuthorized none = true ∧
    (adminDashboard none "t0" Settled.rejected Settled.rejected
      Settled.rejected Settled.rejected).2 = 4 ∧
    (adminDashboard none "t0" Settled.rejected Settled.rejected
      Settled.rejected Settled.rejected).1.status = 200 ∧
    ¬ ∃ u : Identity, (none : Option Identity) = some u ∧ u.role = "admin" := by
  refine ⟨rfl, rfl, rfl, ?_⟩
  rintro ⟨u, hu, _⟩
  cases hu

/-- Claim C1 (amended): the admin-overview endpoint denies access iff the
request carries an annotated Identity whose role differs from admin; a
denied request receives the FORBIDDEN envelope at 403 with zero backend
calls, and any other request (admin identity or no identity) proceeds to
the four fan-out calls. -/
theorem adminAccess (user : Option Identity) (ts : String) (s1 s2 s3 s4 : Settled) :
    (adminAuthorized user = true ↔ ∀ u, user = some u → u.role = "admin") ∧
    (adminAuthorized user = false →
      adminDashboard user ts s1 s2 s3 s4 = (adminForbidden, 0)) ∧
    (adminAuthorized user = true →
      (adminDashboard user ts s1 s2 s3 s4).2 = 4 ∧
      (adminDashboard user ts s1 s2 s3 s4).1.status ≠ 403) ∧
    adminForbidden.status = 403 ∧
    (Json.getKey adminForbidden.body "error").bind (fun e => Json.getKey e "code") =
      some (Json.str "FORBIDDEN") := by
  refine ⟨?_, ?_, ?_, rfl, rfl⟩
  · cases user with
    | none => simp [adminAuthorized]
    | some u =>
      simp only [adminAuthorized, beq_iff_eq]
      constructor
      · intro hu u2 hu2
        cases hu2
        exact hu
      · intro hall
        exact hall u rfl
  · intro hd
    simp [adminDashboard, hd]
  · intro ha
    simp only [adminDashboard, ha, if_true]
    cases hassemble : adminAssemble s1 s2 s3 s4 with
    | error e => simp
    | ok payload => simp

/-- Witness for C1 at a concrete non-admin identity and a concrete granted
request. -/
theorem adminAccess_witness :
    adminDashboard (some { id := "u1", role := "trainer" }) "t0" Settled.rejected
      Settled.rejected Settled.rejected Settled.rejected = (adminForbidden, 0) ∧
    (adminDashboard (some { id := "u2", role := "admin" }) "t0" Settled.rejected
      Settled.rejected Settled.rejected Settled.rejected).2 = 4 := by
  refine ⟨?_, ?_⟩
  · exact (adminAccess (some { id := "u1", role := "trainer" }) "t0" Settled.rejected
      Settled.rejected Settled.rejected Settled.rejected).2.1 (by decide)
  · exact ((adminAccess (some { id := "u2", role := "admin" }) "t0" Settled.rejected
      Settled.rejected Settled.rejected Settled.rejected).2.2.1 (by decide)).1

/-- Claim C6: a client identity requesting a different client id receives
the FORBIDDEN envelope at 403 with zero backend calls; a client requesting
its own id, and any trainer or admin identity, proceeds to the four
fan-out calls and is never denied by this check. -/
theorem clientDashboard_access (u : Identity) (pathId ts : String)
    (p pr b a : Settled) :
    (u.role = "client" → u.id ≠ pathId →
      clientDashboard (some u) pathId ts p pr b a = (clientForbidden, 0)) ∧
    (u.role = "client" → u.id = pathId →
      (clientDashboard (some u) pathId ts p pr b a).2 = 4 ∧
      (clientDashboard (some u) pathId ts p pr b a).1.status ≠ 403) ∧
    (u.role = "trainer" ∨ u.role = "admin" →
      (clientDashboard (some u) pathId ts p pr b a).2 = 4 ∧
      (clientDashboard (some u) pathId ts p pr b a).1.status ≠ 403) ∧
    clientForbidden.status = 403 ∧
    (Json.getKey clientForbidden.body "error").bind (fun e => Json.getKey e "code") =
      some (Json.str "FORBIDDEN") := by
  have hproceed : clientAuthorized (some u) pathId = true →
      (clientDashboard (some u) pathId ts p pr b a).2 = 4 ∧
      (clientDashboard (some u) pathId ts p pr b a).1.status ≠ 403 := by
    intro ha
    simp only [clientDashboard, ha, if_true]
    cases hassemble : clientAssemble p pr b a with
    | error e => simp
    | ok payload => simp
  refine ⟨?_, ?_, ?_, rfl, rfl⟩
  · intro hrole hid
    have hd : clientAuthorized (some u) pathId = false := by
      simp [clientAuthorized, hrole, hid]
    simp [clientDashboard, hd]
  · intro hrole hid
    apply hproceed
    simp [clientAuthorized, hid]
  · intro hrole
    apply hproceed
    rcases hrole with hrole | hrole <;> simp [clientAuthorized, hrole]

/-- Witness for C6 at concrete identities and path ids. -/
theorem clientDashboard_access_witness :
    clientDashboard (some { id := "c1", role := "client" }) "c2" "t0" Settled.rejected
      Settled.rejected Settled.rejected Settled.rejected = (clientForbidden, 0) ∧
    (clientDashboard (some { id := "c1", role := "client" }) "c1" "t0" Settled.rejected
      Settled.rejected Settled.rejected Settled.rejected).2 = 4 ∧
    (clientDashboard (some { id := "tr1", role := "trainer" }) "c2" "t0" Settled.rejected
      Settled.rejected Settled.rejected Settled.rejected).2 = 4 := by
  refine ⟨?_, ?_, ?_⟩
  · exact (clientDashboard_access { id := "c1", role := "client" } "c2" "t0"
      Settled.rejected Settled.rejected Settled.rejected Settled.rejected).1
      rfl (by decide)
  · exact ((clientDashboard_access { id := "c1", role := "client" } "c1" "t0"
      Settled.rejected Settled.rejected Settled.rejected Settled.rejected).2.1
      rfl rfl).1
  · exact ((clientDashboard_access { id := "tr1", role := "trainer" } "c2" "t0"
      Settled.rejected Settled.rejected Settled.rejected Settled.rejected).2.2.1
      (Or.inl rfl)).1

/-- Claim C4 counterexample: a transport-level fault at the
trainer-verification step yields INVALID_TRAINER at status 400, not a
BOOKING_FAILED envelope at a server-error status: the rejection is
absorbed by the validation catch and treated as an invalid trainer. -/
theorem bookingValidated_trainer_fault_cex :
    postBookingValidated Upstream.netError (Upstream.ok (Json.obj [])) =
      { status := 400, body := invalidTrainerBody } ∧
    (Json.getKey invalidTrainerBody "error").bind (fun e => Json.getKey e "code") =
      some (Json.str "INVALID_TRAINER") ∧
    (postBookingValidated Upstream.netError (Upstream.ok (Json.obj []))).status < 500 := by
  refine ⟨rfl, rfl, ?_⟩
  show (400 : Nat) < 500
  decide

/-- Claim C4 (amended): any rejection of the trainer-verification call,
transport fault or backend error response alike, yields INVALID_TRAINER at
400; once the trainer is confirmed, a transport fault at the
booking-creation step yields BOOKING_FAILED at 500, a backend error
response is passed through with its exact status and body, and a success
is forwarded at 201. -/
theorem bookingValidated_faults (body d : Json) (rv : Option Json)
    (st : Nat) (eb bb : Json) (c : Upstream)
    (hd : jsAccess body "data" = Except.ok (some d))
    (hrole : jsAccess d "role" = Except.ok rv)
    (hr : roleIsTrainer rv = true) :
    postBookingValidated Upstream.netError c = { status := 400, body := invalidTrainerBody } ∧
    postBookingValidated (Upstream.httpError st eb) c =
      { status := 400, body := invalidTrainerBody } ∧
    postBookingValidated (Upstream.ok body) Upstream.netError =
      { status := 500, body := bookingFailedBody } ∧
    postBookingValidated (Upstream.ok body) (Upstream.httpError st eb) =
      { status := st, body := eb } ∧
    postBookingValidated (Upstream.ok body) (Upstream.ok bb) =
      { status := 201, body := bb } := by
  refine ⟨rfl, rfl, ?_, ?_, ?_⟩ <;>
    simp [postBookingValidated, hd, hrole, hr]

/-- Witness for C4 at a concrete confirmed-trainer body. -/
theorem bookingValidated_faults_witness :
    postBookingValidated
      (Upstream.ok (Json.obj [("data", Json.obj [("role", Json.str "trainer")])]))
      Upstream.netError = { status := 500, body := bookingFailedBody } ∧
    postBookingValidated
      (Upstream.ok (Json.obj [("data", Json.obj [("role", Json.str "trainer")])]))
      (Upstream.httpError 409 Json.null) = { status := 409, body := Json.null } ∧
    postBookingValidated Upstream.netError Upstream.netError =
      { status := 400, body := invalidTrainerBody } := by
  have h := bookingValidated_faults
    (Json.obj [("data", Json.obj [("role", Json.str "trainer")])])
    (Json.obj [("role", Json.str "trainer")])
    (some (Json.str "trainer")) 409 Json.null Json.null Upstream.netError
    rfl rfl (by decide)
  exact ⟨h.2.2.1, h.2.2.2.1, h.1⟩

/-- When every stored date is a valid date-only string, the filter never
throws and keeps exactly the records whose date equals the current date. -/
theorem todaySchedule_of_parses (today : String) (bs : List Booking)
    (h : ∀ r ∈ bs, jsDateToISODate r.booking_date = some r.booking_date) :
    todaySchedule today bs = Except.ok (bs.filter (fun r => r.booking_date == today)) := by
  induction bs with
  | nil => rfl
  | cons x rest ih =>
    have hx := h x (List.mem_cons_self x rest)
    have hrest := ih (fun r hr => h r (List.mem_cons_of_mem x hr))
    cases hxb : (x.booking_date == today) with
    | true =>
      simp [todaySchedule, todayKeeps, hxb, hrest, List.filter_cons, Bind.bind, Except.bind]
    | false =>
      simp [todaySchedule, todayKeeps, hxb, hx, hrest, List.filter_cons, Bind.bind, Except.bind]

/-- A record whose stored date differs from the current date and fails to
parse makes the filter throw. -/
theorem todaySchedule_throws (today : String) (bs : List Booking) (r : Booking)
    (hr : r ∈ bs) (hbad : jsDateToISODate r.booking_date = none)
    (hne : r.booking_date ≠ today) :
    todaySchedule today bs = Except.error () := by
  induction bs with
  | nil => cases hr
  | cons x rest ih =>
    rcases List.mem_cons.mp hr with hx | hx
    · subst hx
      have hxb : (r.booking_date == today) = false := by
        simp [hne]
      simp [todaySchedule, todayKeeps, hxb, hbad, Bind.bind, Except.bind]
    · cases hk : todayKeeps today x with
      | error e =>
        simp [todaySchedule, hk, Bind.bind, Except.bind]
      | ok keep =>
        simp [todaySchedule, hk, ih hx, Bind.bind, Except.bind]

/-- Claim C7: the today-schedule derivation is a pure deterministic filter
keeping exactly the records whose normalized stored date equals the
current date; in particular, from bookings dated yesterday, today and
tomorrow, exactly the one dated today appears in the assembled
today_schedule field. -/
theorem trainerDashboard_today_filter (today ts pathId : String)
    (user : Option Identity) (yb bt tb : Booking) (bs : List Booking)
    (profile programs clients : Settled)
    (hyb : jsDateToISODate yb.booking_date = some yb.booking_date)
    (hybne : yb.booking_date ≠ today)
    (hbt : bt.booking_date = today)
    (htb : jsDateToISODate tb.booking_date = some tb.booking_date)
    (htbne : tb.booking_date ≠ today)
    (hall : ∀ r ∈ bs, jsDateToISODate r.booking_date = some r.booking_date)
    (hauth : trainerAuthorized user pathId = true)
    (hp : ∃ v, extractField profile Json.null = Except.ok v)
    (hac : ∃ v, trainerActiveClients programs = Except.ok v)
    (hrp : ∃ v, extractField programs (Json.arr []) = Except.ok v) :
    todaySchedule today bs = Except.ok (bs.filter (fun r => r.booking_date == today)) ∧
    ∃ d, trainerDashboard user pathId today ts profile programs
        (BookingsSlot.fulfilled [yb, bt, tb]) clients = TrainerResponse.success d ts ∧
      d.today_schedule = [bt] := by
  obtain ⟨pv, hpv⟩ := hp
  obtain ⟨ac, hacv⟩ := hac
  obtain ⟨rp, hrpv⟩ := hrp
  have hybb : (yb.booking_date == today) = false := by simp [hybne]
  have htbb : (tb.booking_date == today) = false := by simp [htbne]
  have hbtb : (bt.booking_date == today) = true := by simp [hbt]
  have hsched : todaySchedule today [yb, bt, tb] = Except.ok [bt] := by
    simp [todaySchedule, todayKeeps, hybb, htbb, hbtb, hyb, htb, Bind.bind, Except.bind]
  refine ⟨todaySchedule_of_parses today bs hall, ?_⟩
  refine ⟨{ profile := pv, active_clients := ac, today_schedule := [bt],
            recent_programs := rp }, ?_, rfl⟩
  simp [trainerDashboard, hauth, hsched, hpv, hacv, hrpv, Bind.bind, Except.bind]

/-- Witness for C7 at concrete yesterday, today and tomorrow dates. -/
theorem trainerDashboard_today_filter_witness :
    todaySchedule "2024-03-15" [⟨"2024-03-14", "y"⟩, ⟨"2024-03-15", "t"⟩, ⟨"2024-03-16", "w"⟩] =
      Except.ok [⟨"2024-03-15", "t"⟩] ∧
    ∃ d, trainerDashboard none "p1" "2024-03-15" "ts" Settled.rejected Settled.rejected
        (BookingsSlot.fulfilled
          [⟨"2024-03-14", "y"⟩, ⟨"2024-03-15", "t"⟩, ⟨"2024-03-16", "w"⟩])
        Settled.rejected = TrainerResponse.success d "ts" ∧
      d.today_schedule = [⟨"2024-03-15", "t"⟩] := by
  have h := trainerDashboard_today_filter "2024-03-15" "ts" "p1" none
    ⟨"2024-03-14", "y"⟩ ⟨"2024-03-15", "t"⟩ ⟨"2024-03-16", "w"⟩
    [⟨"2024-03-14", "y"⟩, ⟨"2024-03-15", "t"⟩, ⟨"2024-03-16", "w"⟩]
    Settled.rejected Settled.rejected Settled.rejected
    (by decide) (by decide) rfl (by decide) (by decide) (by decide) rfl
    ⟨some Json.null, rfl⟩ ⟨some (Json.num 0), rfl⟩ ⟨some (Json.arr []), rfl⟩
  refine ⟨?_, h.2⟩
  rw [h.1]
  rfl

/-- Claim C10: the today-schedule filter is not total: a fulfilled
bookings list containing a record whose stored date does not parse (while
the current date is a valid date string) makes the filter throw, and the
handler catch turns the whole request into DASHBOARD_ERROR at 500. -/
theorem trainerDashboard_bad_date (user : Option Identity)
    (pathId today ts : String) (profile programs clients : Settled)
    (bs : List Booking) (r : Booking)
    (hauth : trainerAuthorized user pathId = true)
    (hr : r ∈ bs)
    (hbad : jsDateToISODate r.booking_date = none)
    (htoday : jsDateToISODate today = some today) :
    trainerDashboard user pathId today ts profile programs
      (BookingsSlot.fulfilled bs) clients = TrainerResponse.dashboardError ∧
    TrainerResponse.dashboardError.status = 500 := by
  have hne : r.booking_date ≠ today := by
    intro he
    rw [he, htoday] at hbad
    cases hbad
  have hsched := todaySchedule_throws today bs r hr hbad hne
  refine ⟨?_, rfl⟩
  simp [trainerDashboard, hauth, hsched]

/-- Witness for C10 at a concrete malformed record. -/
theorem trainerDashboard_bad_date_witness :
    trainerDashboard none "p1" "2024-03-15" "ts" Settled.rejected Settled.rejected
      (BookingsSlot.fulfilled [⟨"not-a-date", "x"⟩]) Settled.rejected =
      TrainerResponse.dashboardError := by
  exact (trainerDashboard_bad_date none "p1" "2024-03-15" "ts" Settled.rejected
    Settled.rejected Settled.rejected [⟨"not-a-date", "x"⟩] ⟨"not-a-date", "x"⟩
    rfl (List.mem_cons_self _ _) (by decide) (by decide)).1

/-- A slot whose fulfilled body is not null extracts without throwing,
and the handler extraction agrees with the specification rule. -/
theorem extractField_ok (s : Settled) (fb : Json)
    (h : ∀ body, s = Settled.fulfilled body → body ≠ Json.null) :
    extractField s fb = Except.ok (specSlotField s fb) := by
  cases s with
  | rejected => rfl
  | fulfilled body =>
    have hb := h body rfl
    simp [extractField, specSlotField, jsAccess_ne_null body "data" hb]

/-- A count slot whose fulfilled body is not null and carries a numeric
nested pagination.total_count is counted without throwing, and the handler
count agrees with the specification rule. -/
theorem adminCount_ok (s : Settled)
    (h : ∀ body, s = Settled.fulfilled body → body ≠ Json.null ∧
      ∃ n : Int, (Json.getKey body "pagination").bind
        (fun pv => Json.getKey pv "total_count") = some (Json.num n)) :
    ∃ v, adminCount s = Except.ok v ∧ specCountField s = some v := by
  cases s with
  | rejected => exact ⟨Json.num 0, rfl, rfl⟩
  | fulfilled body =>
    obtain ⟨hnn, n, hn⟩ := h body rfl
    cases hpag : Json.getKey body "pagination" with
    | none =>
      rw [hpag] at hn
      cases hn
    | some pv =>
      rw [hpag] at hn
      have hn2 : Json.getKey pv "total_count" = some (Json.num n) := hn
      refine ⟨Json.num n, ?_, ?_⟩
      · simp [adminCount, jsAccess_ne_null body "pagination" hnn, hpag,
          jsOptAccess_eq_getKey, hn2, jsOrZero_num, Bind.bind, Except.bind]
      · simp [specCountField, hpag, hn2]

/-- Reading a data field of an aggregation success response reads the
assembled payload. -/
theorem dataField_success (payload : Json) (ts k : String) :
    dataField { status := 200, body := successEnvelope payload ts } k =
      Json.getKey payload k := rfl

/-- Claim C2: for a dashboard aggregation where exactly two of the four
fan-out calls fulfill and two reject, the response is reported as success
at status 200 and each payload field carries the extracted value of its
fulfilled slot or the documented fallback (null for singular objects,
empty sequence for lists, 0 for counts) of its rejected slot: stated for
the client dashboard and the admin dashboard. -/
theorem dashboards_partial_failure
    (user : Option Identity) (pathId ts : String)
    (p pr b a s1 s2 s3 s4 : Settled)
    (hcauth : clientAuthorized user pathId = true)
    (haauth : adminAuthorized user = true)
    (_hc2 : List.countP Settled.isFulfilled [p, pr, b, a] = 2)
    (_ha2 : List.countP Settled.isFulfilled [s1, s2, s3, s4] = 2)
    (hp : ∀ body, p = Settled.fulfilled body → body ≠ Json.null)
    (hpr : ∀ body, pr = Settled.fulfilled body → body ≠ Json.null)
    (hbk : ∀ body, b = Settled.fulfilled body → body ≠ Json.null)
    (han : ∀ body, a = Settled.fulfilled body → body ≠ Json.null)
    (hs1 : ∀ body, s1 = Settled.fulfilled body → body ≠ Json.null ∧
      ∃ n : Int, (Json.getKey body "pagination").bind
        (fun pv => Json.getKey pv "total_count") = some (Json.num n))
    (hs2 : ∀ body, s2 = Settled.fulfilled body → body ≠ Json.null ∧
      ∃ n : Int, (Json.getKey body "pagination").bind
        (fun pv => Json.getKey pv "total_count") = some (Json.num n))
    (hs3 : ∀ body, s3 = Settled.fulfilled body → body ≠ Json.null ∧
      ∃ n : Int, (Json.getKey body "pagination").bind
        (fun pv => Json.getKey pv "total_count") = some (Json.num n))
    (hs4 : ∀ body, s4 = Settled.fulfilled body → body ≠ Json.null ∧
      ∃ n : Int, (Json.getKey body "pagination").bind
        (fun pv => Json.getKey pv "total_count") = some (Json.num n)) :
    (clientDashboard user pathId ts p pr b a).1.status = 200 ∧
    Json.getKey (clientDashboard user pathId ts p pr b a).1.body "success" =
      some (Json.bool true) ∧
    dataField (clientDashboard user pathId ts p pr b a).1 "profile" =
      specSlotField p Json.null ∧
    dataField (clientDashboard user pathId ts p pr b a).1 "active_programs" =
      specSlotField pr (Json.arr []) ∧
    dataField (clientDashboard user pathId ts p pr b a).1 "upcoming_bookings" =
      specSlotField b (Json.arr []) ∧
    dataField (clientDashboard user pathId ts p pr b a).1 "progress_summary" =
      specSlotField a Json.null ∧
    (adminDashboard user ts s1 s2 s3 s4).1.status = 200 ∧
    Json.getKey (adminDashboard user ts s1 s2 s3 s4).1.body "success" =
      some (Json.bool true) ∧
    dataField (adminDashboard user ts s1 s2 s3 s4).1 "total_users" = specCountField s1 ∧
    dataField (adminDashboard user ts s1 s2 s3 s4).1 "total_trainers" = specCountField s2 ∧
    dataField (adminDashboard user ts s1 s2 s3 s4).1 "total_clients" = specCountField s3 ∧
    dataField (adminDashboard user ts s1 s2 s3 s4).1 "total_programs" = specCountField s4 := by
  have hassem : clientAssemble p pr b a = Except.ok (mkObj
      [("profile", specSlotField p Json.null),
       ("active_programs", specSlotField pr (Json.arr [])),
       ("upcoming_bookings", specSlotField b (Json.arr [])),
       ("progress_summary", specSlotField a Json.null)]) := by
    simp [clientAssemble, extractField_ok p Json.null hp,
      extractField_ok pr (Json.arr []) hpr, extractField_ok b (Json.arr []) hbk,
      extractField_ok a Json.null han, Bind.bind, Except.bind]
  have hcresp : clientDashboard user pathId ts p pr b a =
      ({ status := 200, body := successEnvelope (mkObj
        [("profile", specSlotField p Json.null),
         ("active_programs", specSlotField pr (Json.arr [])),
         ("upcoming_bookings", specSlotField b (Json.arr [])),
         ("progress_summary", specSlotField a Json.null)]) ts }, 4) := by
    simp [clientDashboard, hcauth, hassem]
  obtain ⟨v1, hv1, hsv1⟩ := adminCount_ok s1 hs1
  obtain ⟨v2, hv2, hsv2⟩ := adminCount_ok s2 hs2
  obtain ⟨v3, hv3, hsv3⟩ := adminCount_ok s3 hs3
  obtain ⟨v4, hv4, hsv4⟩ := adminCount_ok s4 hs4
  have haassem : adminAssemble s1 s2 s3 s4 = Except.ok (Json.obj
      [("total_users", v1), ("total_trainers", v2),
       ("total_clients", v3), ("total_programs", v4)]) := by
    simp [adminAssemble, hv1, hv2, hv3, hv4, Bind.bind, Except.bind]
  have haresp : adminDashboard user ts s1 s2 s3 s4 =
      ({ status := 200, body := successEnvelope (Json.obj
        [("total_users", v1), ("total_trainers", v2),
         ("total_clients", v3), ("total_programs", v4)]) ts }, 4) := by
    simp [adminDashboard, haauth, haassem]
  have hnodupc : ((([("profile", specSlotField p Json.null),
      ("active_programs", specSlotField pr (Json.arr [])),
      ("upcoming_bookings", specSlotField b (Json.arr [])),
      ("progress_summary", specSlotField a Json.null)]) :
      List (String × Option Json)).map Prod.fst).Nodup := by
    have hm : ((([("profile", specSlotField p Json.null),
        ("active_programs", specSlotField pr (Json.arr [])),
        ("upcoming_bookings", specSlotField b (Json.arr [])),
        ("progress_summary", specSlotField a Json.null)]) :
        List (String × Option Json)).map Prod.fst) =
        ["profile", "active_programs", "upcoming_bookings", "progress_summary"] := rfl
    rw [hm]
    decide
  refine ⟨?_, ?_, ?_, ?_, ?_, ?_, ?_, ?_, ?_, ?_, ?_, ?_⟩
  · rw [hcresp]
  · rw [hcresp]
    rfl
  · rw [hcresp, dataField_success, getKey_mkObj_nodup _ _ hnodupc]
    rfl
  · rw [hcresp, dataField_success, getKey_mkObj_nodup _ _ hnodupc]
    rfl
  · rw [hcresp, dataField_success, getKey_mkObj_nodup _ _ hnodupc]
    rfl
  · rw [hcresp, dataField_success, getKey_mkObj_nodup _ _ hnodupc]
    rfl
  · rw [haresp]
  · rw [haresp]
    rfl
  · rw [haresp, dataField_success, hsv1]
    rfl
  · rw [haresp, dataField_success, hsv2]
    rfl
  · rw [haresp, dataField_success, hsv3]
    rfl
  · rw [haresp, dataField_success, hsv4]
    rfl

/-- Witness for C2: two fulfilled and two rejected slots on each
dashboard, with the concrete extracted values and fallbacks. -/
theorem dashboards_partial_failure_witness :
    (clientDashboard none "c1" "ts"
      (Settled.fulfilled (Json.obj [("data", Json.obj [("name", Json.str "Ana")])]))
      (Settled.fulfilled (Json.obj [("data", Json.arr [Json.str "prog1"])]))
      Settled.rejected Settled.rejected).1.status = 200 ∧
    dataField (clientDashboard none "c1" "ts"
      (Settled.fulfilled (Json.obj [("data", Json.obj [("name", Json.str "Ana")])]))
      (Settled.fulfilled (Json.obj [("data", Json.arr [Json.str "prog1"])]))
      Settled.rejected Settled.rejected).1 "profile" =
      some (Json.obj [("name", Json.str "Ana")]) ∧
    dataField (clientDashboard none "c1" "ts"
      (Settled.fulfilled (Json.obj [("data", Json.obj [("name", Json.str "Ana")])]))
      (Settled.fulfilled (Json.obj [("data", Json.arr [Json.str "prog1"])]))
      Settled.rejected Settled.rejected).1 "upcoming_bookings" =
      some (Json.arr []) ∧
    dataField (clientDashboard none "c1" "ts"
      (Settled.fulfilled (Json.obj [("data", Json.obj [("name", Json.str "Ana")])]))
      (Settled.fulfilled (Json.obj [("data", Json.arr [Json.str "prog1"])]))
      Settled.rejected Settled.rejected).1 "progress_summary" = some Json.null ∧
    dataField (adminDashboard none "ts"
      (Settled.fulfilled (Json.obj [("pagination", Json.obj [("total_count", Json.num 42)])]))
      (Settled.fulfilled (Json.obj [("pagination", Json.obj [("total_count", Json.num 7)])]))
      Settled.rejected Settled.rejected).1 "total_users" = some (Json.num 42) ∧
    dataField (adminDashboard none "ts"
      (Settled.fulfilled (Json.obj [("pagination", Json.obj [("total_count", Json.num 42)])]))
      (Settled.fulfilled (Json.obj [("pagination", Json.obj [("total_count", Json.num 7)])]))
      Settled.rejected Settled.rejected).1 "total_clients" = some (Json.num 0) := by
  have h := dashboards_partial_failure none "c1" "ts"
    (Settled.fulfilled (Json.obj [("data", Json.obj [("name", Json.str "Ana")])]))
    (Settled.fulfilled (Json.obj [("data", Json.arr [Json.str "prog1"])]))
    Settled.rejected Settled.rejected
    (Settled.fulfilled (Json.obj [("pagination", Json.obj [("total_count", Json.num 42)])]))
    (Settled.fulfilled (Json.obj [("pagination", Json.obj [("total_count", Json.num 7)])]))
    Settled.rejected Settled.rejected
    rfl rfl rfl rfl
    (by intro body hbe; cases hbe; intro hnull; cases hnull)
    (by intro body hbe; cases hbe; intro hnull; cases hnull)
    (by intro body hbe; cases hbe)
    (by intro body hbe; cases hbe)
    (by intro body hbe; cases hbe; exact ⟨(by intro hnull; cases hnull), 42, rfl⟩)
    (by intro body hbe; cases hbe; exact ⟨(by intro hnull; cases hnull), 7, rfl⟩)
    (by intro body hbe; cases hbe)
    (by intro body hbe; cases hbe)
  refine ⟨h.1, ?_, ?_, ?_, ?_, ?_⟩
  · rw [h.2.2.1]
    rfl
  · rw [h.2.2.2.2.1]
    rfl
  · rw [h.2.2.2.2.2.1]
    rfl
  · rw [h.2.2.2.2.2.2.2.2.1]
    rfl
  · rw [h.2.2.2.2.2.2.2.2.2.2.1]
    rfl

end FitSync
